import Mathlib

/-!
Shallow embedding of the Ledger & Reporting Engine of the personal
finance tracker (`src/personalfinancetracker.py`, class
`PersonalFinanceTracker`), together with proofs about the claims of its
specification.

Modelling conventions:
* SQLite `REAL` amounts are modelled as `ℚ`.
* `DATE` columns are stored as ISO text in the source and compared with
  SQLite's binary text collation; they are modelled as `String` with
  lexicographic comparison (`strLe`, `strLt` below).
* Each table is a Lean list in row-insertion order; `AUTOINCREMENT`
  primary keys are modelled by explicit `next…Id` counters starting at 1.
* `created_at` ordering coincides with row-id / insertion order, so the
  row `id` doubles as the `created_at` tiebreak key.
* Python calls that raise are modelled with `Except`; since the source
  commits the transaction insert before the balance-update step runs,
  `add_transaction` returns the committed database state alongside the
  `Except` result, mirroring what is durably visible after an exception.
-/

/-- Lexicographic (binary-collation) order on date strings: `a <= b`. -/
def strLe (a b : String) : Bool :=
  match compare a b with
  | Ordering.gt => false
  | _ => true

/-- Lexicographic (binary-collation) strict order on date strings: `a < b`. -/
def strLt (a b : String) : Bool :=
  match compare a b with
  | Ordering.lt => true
  | _ => false

/-- Row of the `categories` table (id, name, type, color); `budget_limit`
and `created_at` are never read by the core operations and are omitted. -/
structure Category where
  id : Nat
  name : String
  ctype : String
  color : String
deriving DecidableEq, Repr

/-- Row of the `transactions` table. `recurring` / `recurring_frequency`
default to 0/NULL and are never read by the core operations. -/
structure Transaction where
  id : Nat
  amount : ℚ
  description : String
  category_id : Nat
  date : String
  payment_method : String
  location : String
  tags : String
deriving DecidableEq, Repr

/-- Row of the `budgets` table. -/
structure Budget where
  id : Nat
  category_id : Nat
  amount : ℚ
  period : String
  start_date : String
  end_date : String
  alert_threshold : ℚ
deriving DecidableEq, Repr

/-- Row of the `goals` table. -/
structure Goal where
  id : Nat
  name : String
  target_amount : ℚ
  current_amount : ℚ
  target_date : Option String
  description : String
  priority : Int
  achieved : Bool
deriving DecidableEq, Repr

/-- Row of the `accounts` table. -/
structure Account where
  id : Nat
  name : String
  atype : String
  balance : ℚ
  currency : String
  bank : String
deriving DecidableEq, Repr

/-- The whole SQLite database state of the tracker. -/
structure DB where
  categories : List Category
  transactions : List Transaction
  budgets : List Budget
  goals : List Goal
  accounts : List Account
  nextCategoryId : Nat := 1
  nextTransactionId : Nat := 1
  nextBudgetId : Nat := 1
  nextGoalId : Nat := 1
deriving DecidableEq, Repr

/-- The empty database right after `init_database` created the tables
(before `populate_default_categories` runs). -/
def emptyDB : DB :=
  { categories := [], transactions := [], budgets := [], goals := [], accounts := [] }

/-- The fixed default category rows of `populate_default_categories`
(name, type, color), in source order. -/
def default_categories : List (String × String × String) :=
  [("Зарплата", "income", "#28a745"),
   ("Фриланс", "income", "#17a2b8"),
   ("Инвестиции", "income", "#ffc107"),
   ("Еда и развлечения", "expense", "#dc3545"),
   ("Транспорт", "expense", "#6f42c1"),
   ("Покупки", "expense", "#fd7e14"),
   ("Развлечения", "expense", "#e83e8c"),
   ("Счета и коммунальные", "expense", "#6c757d"),
   ("Здоровье", "expense", "#20c997"),
   ("Образование", "expense", "#0d6efd")]

/-- `executemany` of the default-category INSERT: appends each row with a
fresh autoincrement id. -/
def insertCategories (db : DB) (rows : List (String × String × String)) : DB :=
  List.foldl
    (fun d r =>
      { d with
        categories := d.categories ++ [⟨d.nextCategoryId, r.1, r.2.1, r.2.2⟩],
        nextCategoryId := d.nextCategoryId + 1 })
    db rows

/-- `populate_default_categories`: seeds the fixed default set iff
`SELECT COUNT(*) FROM categories` returns 0. -/
def populate_default_categories (db : DB) : DB :=
  if db.categories.length == 0 then insertCategories db default_categories
  else db

/-- `update_balance_after_transaction`: reads the category's type (raising
a `TypeError` when `fetchone()` returns `None`, i.e. the category id does
not resolve), then adds `amount` to the first account's balance for an
income category and subtracts it otherwise; a no-op when no account row
exists. -/
def update_balance_after_transaction (db : DB) (amount : ℚ) (category_id : Nat) :
    DB × Except String Unit :=
  match (db.categories.filter (fun c => c.id == category_id)).head? with
  | none => (db, Except.error "TypeError: NoneType object is not subscriptable")
  | some cat =>
    match db.accounts.head? with
    | none => (db, Except.ok ())
    | some account =>
      let newAccounts := db.accounts.map (fun a =>
        if a.id == account.id then
          { a with balance :=
              if cat.ctype == "income" then a.balance + amount else a.balance - amount }
        else a)
      ({ db with accounts := newAccounts }, Except.ok ())

/-- `add_transaction`: inserts the row and commits, then runs the
balance-update side effect (which may raise). The returned `DB` is the
committed state even when the second component is an error; `date`
defaults to today in the source and is passed explicitly here. -/
def add_transaction (db : DB) (amount : ℚ) (description : String) (category_id : Nat)
    (date : String) (payment_method : String) (location : String) (tags : String) :
    DB × Except String Nat :=
  let t : Transaction :=
    { id := db.nextTransactionId, amount := amount, description := description,
      category_id := category_id, date := date, payment_method := payment_method,
      location := location, tags := tags }
  let db1 := { db with
    transactions := db.transactions ++ [t],
    nextTransactionId := db.nextTransactionId + 1 }
  let res := update_balance_after_transaction db1 amount category_id
  (res.1, res.2.map (fun _ => t.id))

/-- Python truthiness of an optional string parameter (`None` and the
empty string are falsy). -/
def truthyStr (o : Option String) : Bool :=
  match o with
  | none => false
  | some s => s != ""

/-- Python truthiness of an optional integer parameter (`None` and `0`
are falsy). -/
def truthyInt (o : Option Int) : Bool :=
  match o with
  | none => false
  | some n => n != 0

/-- One row of `get_transactions`'s SELECT: transaction columns joined
with the category's name and type. -/
structure TxRow where
  id : Nat
  amount : ℚ
  description : String
  category : String
  ctype : String
  date : String
  payment_method : String
  location : String
  tags : String
deriving DecidableEq, Repr

/-- Projection of a joined (transaction, category) pair onto the SELECT
column list of `get_transactions`. -/
def txRowOf (t : Transaction) (c : Category) : TxRow :=
  { id := t.id, amount := t.amount, description := t.description,
    category := c.name, ctype := c.ctype, date := t.date,
    payment_method := t.payment_method, location := t.location, tags := t.tags }

/-- `ORDER BY t.date DESC, t.created_at DESC`: row `a` sorts no later
than row `b`. The `created_at` tiebreak coincides with the row id. -/
def txRowLe (a b : TxRow) : Bool :=
  if a.date == b.date then b.id ≤ a.id else strLt b.date a.date

/-- Stable insertion into a sorted list (models the SQL sort). -/
def insertBy {α : Type} (le : α → α → Bool) (x : α) : List α → List α
  | [] => [x]
  | y :: ys => if le x y then x :: y :: ys else y :: insertBy le x ys

/-- Stable insertion sort by a boolean comparison. -/
def sortBy {α : Type} (le : α → α → Bool) (l : List α) : List α :=
  List.foldr (insertBy le) [] l

/-- `get_transactions`: joins transactions with categories, applies the
optional conjunctive filters (each skipped when its argument is falsy in
Python, i.e. `None`, `''` or `0`), orders by date then insertion order
descending, and applies `LIMIT` when `limit` is truthy (a negative SQLite
`LIMIT` means unconstrained). -/
def get_transactions (db : DB) (start_date : Option String) (end_date : Option String)
    (category_id : Option Int) (limit : Option Int) : List TxRow :=
  let ts := db.transactions.filter (fun t =>
    (if truthyStr start_date then strLe (start_date.getD "") t.date else true) &&
    (if truthyStr end_date then strLe t.date (end_date.getD "") else true) &&
    (if truthyInt category_id then ((t.category_id : Int) == category_id.getD 0) else true))
  let rows := (ts.map (fun t =>
    (db.categories.filter (fun c => c.id == t.category_id)).map (txRowOf t))).flatten
  let sorted := sortBy txRowLe rows
  if truthyInt limit then
    let n := limit.getD 0
    if n < 0 then sorted else sorted.take n.toNat
  else sorted

/-- Sum of `t.amount` over transactions satisfying `pred`, joined with
the categories whose `type` equals `ty` (the shared shape of the four
aggregate queries in `get_balance_summary`). -/
def type_sum (db : DB) (ty : String) (pred : Transaction → Bool) : ℚ :=
  ((db.transactions.filter pred).map (fun t =>
    ((db.categories.filter (fun c => c.id == t.category_id && c.ctype == ty)).map
      (fun _ => t.amount)).sum)).sum

/-- The dictionary returned by `get_balance_summary`. -/
structure BalanceSummary where
  total_income : ℚ
  total_expenses : ℚ
  net_worth : ℚ
  monthly_income : ℚ
  monthly_expenses : ℚ
  monthly_savings : ℚ
deriving DecidableEq, Repr

/-- `get_balance_summary`; `current_month` is the ISO string of the first
day of the current month (`date.today().replace(day=1).isoformat()`),
passed explicitly since "today" is ambient input. -/
def get_balance_summary (db : DB) (current_month : String) : BalanceSummary :=
  let total_income := type_sum db "income" (fun _ => true)
  let total_expenses := type_sum db "expense" (fun _ => true)
  let monthly_income := type_sum db "income" (fun t => strLe current_month t.date)
  let monthly_expenses := type_sum db "expense" (fun t => strLe current_month t.date)
  { total_income := total_income,
    total_expenses := total_expenses,
    net_worth := total_income - total_expenses,
    monthly_income := monthly_income,
    monthly_expenses := monthly_expenses,
    monthly_savings := monthly_income - monthly_expenses }

/-- One element of the list returned by `check_budget_status`. -/
structure BudgetStatus where
  category : String
  budget : ℚ
  spent : ℚ
  remaining : ℚ
  percentage : ℚ
  alert : Bool
  period : String
deriving DecidableEq, Repr

/-- The inner aggregate of `check_budget_status`: sum of amounts of
transactions joined with categories named `catName`, with
`t.date BETWEEN startD AND endD`. -/
def spentFor (db : DB) (catName : String) (startD endD : String) : ℚ :=
  ((db.transactions.filter (fun t => strLe startD t.date && strLe t.date endD)).map
    (fun t =>
      ((db.categories.filter (fun c => c.name == catName && c.id == t.category_id)).map
        (fun _ => t.amount)).sum)).sum

/-- The status record built for one active budget row joined with
category name `catName`. -/
def budgetStatusOf (db : DB) (b : Budget) (catName : String) : BudgetStatus :=
  let spent := spentFor db catName b.start_date b.end_date
  let percentage := if b.amount > 0 then spent / b.amount * 100 else 0
  { category := catName, budget := b.amount, spent := spent,
    remaining := b.amount - spent, percentage := percentage,
    alert := decide (percentage ≥ b.alert_threshold * 100), period := b.period }

/-- `check_budget_status`: one status per row of budgets joined with
categories where `b.end_date >= date('now')`; `today` is the current date
string, passed explicitly. -/
def check_budget_status (db : DB) (today : String) : List BudgetStatus :=
  ((db.budgets.filter (fun b => strLe today b.end_date)).map (fun b =>
    (db.categories.filter (fun c => c.id == b.category_id)).map
      (fun c => budgetStatusOf db b c.name))).flatten

/-- `add_goal`: inserts the goal row (no validation of the target
amount) and returns the fresh id. -/
def add_goal (db : DB) (name : String) (target_amount : ℚ) (target_date : Option String)
    (description : String) (priority : Int) : DB × Nat :=
  let g : Goal :=
    { id := db.nextGoalId, name := name, target_amount := target_amount,
      current_amount := 0, target_date := target_date, description := description,
      priority := priority, achieved := false }
  ({ db with goals := db.goals ++ [g], nextGoalId := db.nextGoalId + 1 }, g.id)

/-- `update_goal_progress`: the first UPDATE adds `amount` to
`current_amount` of the goal with id `goal_id`; the second sets
`achieved = 1` where the id matches and `current_amount >= target_amount`
(it never clears the flag). -/
def update_goal_progress (db : DB) (goal_id : Nat) (amount : ℚ) : DB :=
  let step1 := db.goals.map (fun g =>
    if g.id == goal_id then { g with current_amount := g.current_amount + amount } else g)
  let step2 := step1.map (fun g =>
    if g.id == goal_id && decide (g.current_amount ≥ g.target_amount) then
      { g with achieved := true }
    else g)
  { db with goals := step2 }

/-- `ROUND(x, 2)` of the store, abstracted as exact half-up rounding to
two decimal places on rationals. -/
def round2 (q : ℚ) : ℚ := ((⌊q * 100 + 1 / 2⌋ : ℤ) : ℚ) / 100

/-- The `progress` column of `get_goals`:
`ROUND((current_amount / target_amount) * 100, 2)`. SQLite division by
zero yields NULL (modelled `none`), and `ROUND(NULL, 2)` is NULL. -/
def goalProgress (g : Goal) : Option ℚ :=
  if g.target_amount = 0 then none
  else some (round2 (g.current_amount / g.target_amount * 100))

/-- One row of `get_goals`'s SELECT. -/
structure GoalRow where
  id : Nat
  name : String
  target_amount : ℚ
  current_amount : ℚ
  target_date : Option String
  description : String
  priority : Int
  achieved : Bool
  progress : Option ℚ
deriving DecidableEq, Repr

/-- Projection of a goal row onto `get_goals`'s column list. -/
def goalRowOf (g : Goal) : GoalRow :=
  { id := g.id, name := g.name, target_amount := g.target_amount,
    current_amount := g.current_amount, target_date := g.target_date,
    description := g.description, priority := g.priority, achieved := g.achieved,
    progress := goalProgress g }

/-- `ORDER BY`-ascending comparison on nullable date strings (SQLite
sorts NULL first in ascending order). -/
def optStrLe (a b : Option String) : Bool :=
  match a, b with
  | none, _ => true
  | some _, none => false
  | some x, some y => strLe x y

/-- `ORDER BY priority, target_date` comparison for `get_goals`. -/
def goalRowLe (a b : GoalRow) : Bool :=
  if a.priority == b.priority then optStrLe a.target_date b.target_date
  else decide (a.priority < b.priority)

/-- `get_goals`: all goal rows with the `progress` annotation, ordered by
priority then target date. -/
def get_goals (db : DB) : List GoalRow :=
  sortBy goalRowLe (db.goals.map goalRowOf)

/-- Gregorian leap-year predicate used by Python's `datetime`. -/
def isLeap (y : Nat) : Bool :=
  y % 4 == 0 && (y % 100 != 0 || y % 400 == 0)

/-- Number of days in a Gregorian calendar month. -/
def daysInMonth (y m : Nat) : Nat :=
  if m == 2 then (if isLeap y then 29 else 28)
  else if m == 4 || m == 6 || m == 9 || m == 11 then 30
  else 31

/-- A `datetime.date` value. -/
structure Date where
  year : Nat
  month : Nat
  day : Nat
deriving DecidableEq, Repr

/-- The `next_month` date of `generate_monthly_report`:
`date(year + 1, 1, 1)` when `month == 12`, else `date(year, month + 1, 1)`. -/
def report_next_month (year month : Nat) : Date :=
  if month == 12 then ⟨year + 1, 1, 1⟩ else ⟨year, month + 1, 1⟩

/-- `d - timedelta(days=1)` of the `datetime` library. -/
def date_sub_one_day (d : Date) : Date :=
  if d.day > 1 then ⟨d.year, d.month, d.day - 1⟩
  else if d.month > 1 then ⟨d.year, d.month - 1, daysInMonth d.year (d.month - 1)⟩
  else ⟨d.year - 1, 12, 31⟩

/-- `last_day` of `generate_monthly_report`:
`(next_month - datetime.timedelta(days=1)).day`. -/
def report_last_day (year month : Nat) : Nat :=
  (date_sub_one_day (report_next_month year month)).day

/-- Zero-padded two-digit decimal formatting, as in `f"{month:02d}"`. -/
def pad2 (n : Nat) : String :=
  if n < 10 then "0" ++ toString n else toString n

/-- `start_date` of `generate_monthly_report`: `f"{year}-{month:02d}-01"`. -/
def report_start_date (year month : Nat) : String :=
  toString year ++ "-" ++ pad2 month ++ "-01"

/-- `end_date` of `generate_monthly_report`:
`f"{year}-{month:02d}-{last_day:02d}"`. -/
def report_end_date (year month : Nat) : String :=
  toString year ++ "-" ++ pad2 month ++ "-" ++ pad2 (report_last_day year month)

/-! Concrete database states used in scenario proofs. -/

/-- Budget scenario state: a "Food" expense category, a budget of 200 on
it for January 2024 with the default 0.8 alert threshold, and one 300
expense inside the window. -/
def budgetScenarioDB : DB :=
  { emptyDB with
    categories := [⟨1, "Food", "expense", "#dc3545"⟩],
    budgets := [⟨1, 1, 200, "monthly", "2024-01-01", "2024-01-31", 8 / 10⟩],
    transactions := [⟨1, 300, "groceries", 1, "2024-01-10", "cash", "", ""⟩],
    nextCategoryId := 2, nextTransactionId := 2, nextBudgetId := 2 }

/-- Goal scenario state: one goal with target 500 and no progress yet. -/
def goalScenarioDB : DB :=
  { emptyDB with
    goals := [⟨1, "Emergency", 500, 0, none, "", 1, false⟩],
    nextGoalId := 2 }

/-- Query scenario state: one expense category and one transaction. -/
def queryScenarioDB : DB :=
  { emptyDB with
    categories := [⟨1, "Food", "expense", "#dc3545"⟩],
    transactions := [⟨1, 50, "lunch", 1, "2024-02-03", "cash", "", ""⟩],
    nextCategoryId := 2, nextTransactionId := 2 }

/-- State with one expense category and no accounts, used to exercise
`add_transaction` with a non-positive amount. -/
def negAmountDB : DB :=
  { emptyDB with
    categories := [⟨1, "Еда и развлечения", "expense", "#dc3545"⟩],
    nextCategoryId := 2 }

/-- State with no categories at all, used to exercise `add_transaction`
with an unresolvable category id. -/
def noCategoryDB : DB := emptyDB

/-- State with one income category and one account of balance 100, used
to exercise the balance side effect of `add_transaction`. -/
def accountDB : DB :=
  { emptyDB with
    categories := [⟨1, "Зарплата", "income", "#28a745"⟩],
    accounts := [⟨1, "Main", "checking", 100, "USD", ""⟩],
    nextCategoryId := 2 }

/-- The per-row effect of `update_goal_progress`'s two UPDATE statements
on one goal: add `amount` to the matching goal's `current_amount`, then
set `achieved` when the new amount reaches the target (never clearing
it). -/
def goalStep (goal_id : Nat) (amount : ℚ) (g : Goal) : Goal :=
  if g.id == goal_id then
    { g with
      current_amount := g.current_amount + amount,
      achieved := g.achieved || decide (g.current_amount + amount ≥ g.target_amount) }
  else g

/-! Helper lemmas shared by the claim proofs. -/

/-- Mapping an id-guarded update over a list whose keys all differ from
the guard key is the identity. -/
theorem map_keyed_update_of_not_mem {α : Type} (key : α → Nat) (f : α → α) (k : Nat) :
    ∀ (l : List α), k ∉ l.map key →
      l.map (fun x => if key x = k then f x else x) = l := by
  intro l
  induction l with
  | nil => intro _; rfl
  | cons x xs ih =>
    intro h
    rw [List.map_cons, List.mem_cons] at h
    push_neg at h
    obtain ⟨h1, h2⟩ := h
    rw [List.map_cons, if_neg (fun hk => h1 hk.symm), ih h2]

/-- A filter by a key equal to `k` over a list with pairwise-distinct
keys has exactly one element as soon as it is non-empty. -/
theorem length_filter_key_eq_one {α : Type} (key : α → Nat) (k : Nat) :
    ∀ (l : List α), (l.map key).Nodup →
      l.filter (fun x => key x == k) ≠ [] →
      (l.filter (fun x => key x == k)).length = 1 := by
  intro l
  induction l with
  | nil => intro _ h; simp at h
  | cons x xs ih =>
    intro hnd hne
    rw [List.map_cons, List.nodup_cons] at hnd
    obtain ⟨hx, hxs⟩ := hnd
    by_cases hk : (key x == k) = true
    · have hxsnil : xs.filter (fun y => key y == k) = [] := by
        rw [List.filter_eq_nil_iff]
        intro y hy
        simp only [beq_iff_eq]
        intro hyk
        exact hx (List.mem_map.mpr ⟨y, hy, by rw [hyk, beq_iff_eq.mp hk]⟩)
      rw [List.filter_cons, if_pos hk, hxsnil]
      rfl
    · rw [List.filter_cons, if_neg hk] at hne ⊢
      exact ih hxs hne

/-- The flattening of a map whose inner lists all have one element has
the length of the outer list. -/
theorem flatten_map_length_eq {α β : Type} (inner : α → List β) :
    ∀ (l : List α), (∀ b ∈ l, (inner b).length = 1) →
      ((l.map inner).flatten).length = l.length := by
  intro l
  induction l with
  | nil => intro _; rfl
  | cons x xs ih =>
    intro h
    rw [List.map_cons, List.flatten_cons, List.length_append,
      h x (List.mem_cons_self x xs), ih (fun b hb => h b (List.mem_cons_of_mem x hb)),
      List.length_cons, Nat.add_comm]

/-! Claim theorems. -/

/-- C1: for every ledger state `get_balance_summary` returns `net_worth`
equal to `total_income - total_expenses` and `monthly_savings` equal to
`monthly_income - monthly_expenses`; on an empty ledger all six fields
are 0, and the computation is total (no division occurs at all). -/
theorem balance_summary_invariant :
    (∀ (db : DB) (current_month : String),
        (get_balance_summary db current_month).net_worth
          = (get_balance_summary db current_month).total_income
            - (get_balance_summary db current_month).total_expenses
      ∧ (get_balance_summary db current_month).monthly_savings
          = (get_balance_summary db current_month).monthly_income
            - (get_balance_summary db current_month).monthly_expenses)
  ∧ (∀ (cats : List Category) (bs : List Budget) (gs : List Goal)
      (accs : List Account) (n1 n2 n3 n4 : Nat) (current_month : String),
        get_balance_summary ⟨cats, [], bs, gs, accs, n1, n2, n3, n4⟩ current_month
          = ⟨0, 0, 0, 0, 0, 0⟩) := by
  constructor
  · intro db cm
    exact ⟨rfl, rfl⟩
  · intro cats bs gs accs n1 n2 n3 n4 cm
    simp [get_balance_summary, type_sum]

/-- C6: the report window of `generate_monthly_report` ends on the last
calendar day of the requested month for every valid month (the December
case rolls over to January of the next year), and in particular the end
date is `2024-12-31` for December 2024 and `2023-02-28` for February
2023; the window starts on the first day of the month. -/
theorem monthly_report_window_spec (year month : Nat)
    (h1 : 1 ≤ month) (h2 : month ≤ 12) :
    report_last_day year month = daysInMonth year month
    ∧ report_start_date year month = toString year ++ "-" ++ pad2 month ++ "-01"
    ∧ report_end_date 2024 12 = "2024-12-31"
    ∧ report_end_date 2023 2 = "2023-02-28" := by
  refine ⟨?_, rfl, by decide, by decide⟩
  interval_cases month <;>
    simp [report_last_day, report_next_month, date_sub_one_day, daysInMonth]

/-- Witness for the monthly-report window theorem at December 2024. -/
theorem monthly_report_window_witness :
    report_last_day 2024 12 = daysInMonth 2024 12
    ∧ report_end_date 2024 12 = "2024-12-31" :=
  ⟨(monthly_report_window_spec 2024 12 (by decide) (by decide)).1,
   (monthly_report_window_spec 2024 12 (by decide) (by decide)).2.2.1⟩

/-- C7: `update_goal_progress` adds any (possibly negative) amount to
the matching goal's `current_amount` and sets `achieved` exactly when
the updated amount reaches the target, never clearing an already-set
flag; in the scenario, reaching 500 of 500 sets `achieved` and a later
-100 update leaves `achieved` true while the amount drops to 400. -/
theorem update_goal_progress_spec :
    (∀ (db : DB) (goal_id : Nat) (amount : ℚ),
        (update_goal_progress db goal_id amount).goals
          = db.goals.map (goalStep goal_id amount))
  ∧ (∀ (goal_id : Nat) (amount : ℚ) (g : Goal),
        g.achieved = true → (goalStep goal_id amount g).achieved = true)
  ∧ (update_goal_progress (update_goal_progress goalScenarioDB 1 500) 1 (-100)).goals
      = [⟨1, "Emergency", 500, 400, none, "", 1, true⟩] := by
  refine ⟨?_, ?_, ?_⟩
  · intro db goal_id amount
    simp only [update_goal_progress, List.map_map]
    apply List.map_congr_left
    intro g _
    by_cases h : (g.id == goal_id) = true
    · by_cases h2 : decide (g.current_amount + amount ≥ g.target_amount) = true <;>
        simp [goalStep, h, h2, Function.comp]
    · simp [goalStep, h, Function.comp]
  · intro goal_id amount g hg
    by_cases h : (g.id == goal_id) = true <;> simp [goalStep, h, hg]
  · simp +decide [update_goal_progress, goalScenarioDB, emptyDB]
    norm_num

/-- Witness for the goal-progress theorem: an achieved goal stays
achieved under a negative correction. -/
theorem update_goal_progress_witness :
    (goalStep 1 (-100) ⟨1, "Emergency", 500, 500, none, "", 1, true⟩).achieved = true :=
  update_goal_progress_spec.2.1 1 (-100) ⟨1, "Emergency", 500, 500, none, "", 1, true⟩ rfl

/-- C9: `populate_default_categories` seeds the fixed default set iff no
category exists, is idempotent, performs no change when a category
already exists, and the seeded names contain no duplicates. -/
theorem populate_default_categories_spec (db : DB) :
    populate_default_categories (populate_default_categories db)
      = populate_default_categories db
    ∧ (db.categories ≠ [] → populate_default_categories db = db)
    ∧ (db.categories = [] →
        (populate_default_categories db).categories.map (fun c => c.name)
          = default_categories.map (fun r => r.1)
        ∧ ((populate_default_categories db).categories.map (fun c => c.name)).Nodup) := by
  by_cases hc : db.categories = []
  · refine ⟨?_, fun h => absurd hc h, fun _ => ⟨?_, ?_⟩⟩ <;>
      simp +decide [populate_default_categories, insertCategories, default_categories, hc]
  · have h0 : (db.categories.length == 0) = false := by
      simp only [beq_eq_false_iff_ne]
      exact fun h => hc (List.length_eq_zero.mp h)
    refine ⟨?_, fun _ => ?_, fun h => absurd h hc⟩ <;>
      simp [populate_default_categories, h0]

/-- Witness for the seeding theorem at the empty database. -/
theorem populate_default_categories_witness :
    populate_default_categories (populate_default_categories emptyDB)
      = populate_default_categories emptyDB
    ∧ (populate_default_categories emptyDB).categories.map (fun c => c.name)
      = default_categories.map (fun r => r.1) :=
  ⟨(populate_default_categories_spec emptyDB).1,
   ((populate_default_categories_spec emptyDB).2.2 rfl).1⟩

/-- C10: `get_transactions` treats `category_id = 0` and `limit = 0` as
absent arguments (Python falsiness): a zero category id applies no
category filter and a zero limit returns all matching rows; on a state
with one transaction, both zero arguments still return that row. -/
theorem get_transactions_falsy_filters :
    (∀ (db : DB) (sd ed : Option String) (lim : Option Int),
        get_transactions db sd ed (some 0) lim = get_transactions db sd ed none lim)
  ∧ (∀ (db : DB) (sd ed : Option String) (cid : Option Int),
        get_transactions db sd ed cid (some 0) = get_transactions db sd ed cid none)
  ∧ get_transactions queryScenarioDB none none (some 0) (some 0)
      = [⟨1, 50, "lunch", "Food", "expense", "2024-02-03", "cash", "", ""⟩] :=
  ⟨fun _ _ _ _ => rfl, fun _ _ _ _ => rfl, rfl⟩

/-- C2 (amended): `add_transaction` performs no amount validation; a
call with a non-positive amount succeeds (no `InvalidAmountError`
exists in the code) and the transaction record is committed with the
non-positive amount unchanged, provided the category id resolves. -/
theorem add_transaction_accepts_nonpositive_amount (db : DB) (amount : ℚ)
    (description : String) (cid : Nat) (date pm loc tags : String) (cat : Category)
    (hcat : (db.categories.filter (fun c => c.id == cid)).head? = some cat)
    (_hle : amount ≤ 0) :
    (add_transaction db amount description cid date pm loc tags).2
        = Except.ok db.nextTransactionId
    ∧ (add_transaction db amount description cid date pm loc tags).1.transactions
        = db.transactions
            ++ [⟨db.nextTransactionId, amount, description, cid, date, pm, loc, tags⟩] := by
  rcases haccs : db.accounts with _ | ⟨a, rest⟩ <;>
    simp [add_transaction, update_balance_after_transaction, Except.map, hcat, haccs]

/-- C2 counterexample: with an expense category present, appending a
transaction of amount -5 succeeds and the -5 record is stored, so the
claimed `InvalidAmountError` rejection of non-positive amounts does not
happen. -/
theorem add_transaction_nonpositive_counterexample :
    ((-5 : ℚ) ≤ 0)
    ∧ (add_transaction negAmountDB (-5) "snack" 1 "2024-01-02" "cash" "" "").2
        = Except.ok 1
    ∧ (add_transaction negAmountDB (-5) "snack" 1 "2024-01-02" "cash" "" "").1.transactions
        = [⟨1, -5, "snack", 1, "2024-01-02", "cash", "", ""⟩] := by
  refine ⟨by norm_num, ?_, ?_⟩ <;>
    simp [add_transaction, update_balance_after_transaction, Except.map, negAmountDB, emptyDB]

/-- Witness for the amended non-positive-amount theorem at amount -5. -/
theorem add_transaction_accepts_nonpositive_amount_witness :
    (add_transaction negAmountDB (-5) "snack" 1 "2024-01-02" "cash" "" "").2
        = Except.ok 1 :=
  (add_transaction_accepts_nonpositive_amount negAmountDB (-5) "snack" 1 "2024-01-02"
    "cash" "" "" ⟨1, "Еда и развлечения", "expense", "#dc3545"⟩ rfl (by norm_num)).1

/-- C3 (amended): `add_transaction` with an unresolvable category id
raises an error (a `TypeError` from the balance-update step, not an
`UnknownCategoryError`), but only after the transaction row has been
committed: the record remains visible to later reads, and only the
balance update is skipped. -/
theorem add_transaction_unknown_category_commits (db : DB) (amount : ℚ)
    (description : String) (cid : Nat) (date pm loc tags : String)
    (hcat : (db.categories.filter (fun c => c.id == cid)).head? = none) :
    (add_transaction db amount description cid date pm loc tags).2
        = Except.error "TypeError: NoneType object is not subscriptable"
    ∧ (add_transaction db amount description cid date pm loc tags).1.transactions
        = db.transactions
            ++ [⟨db.nextTransactionId, amount, description, cid, date, pm, loc, tags⟩]
    ∧ (add_transaction db amount description cid date pm loc tags).1.accounts
        = db.accounts := by
  simp [add_transaction, update_balance_after_transaction, Except.map, hcat]

/-- C3 counterexample: with no categories at all, appending against
category id 99 raises, yet the transaction row is committed and visible,
contradicting the claim that the ledger is unchanged on error. -/
theorem add_transaction_unknown_category_counterexample :
    noCategoryDB.categories.filter (fun c => c.id == 99) = []
    ∧ (add_transaction noCategoryDB 5 "taxi" 99 "2024-01-02" "cash" "" "").2
        = Except.error "TypeError: NoneType object is not subscriptable"
    ∧ (add_transaction noCategoryDB 5 "taxi" 99 "2024-01-02" "cash" "" "").1.transactions
        = [⟨1, 5, "taxi", 99, "2024-01-02", "cash", "", ""⟩] := by
  refine ⟨rfl, ?_, ?_⟩ <;>
    simp [add_transaction, update_balance_after_transaction, Except.map, noCategoryDB, emptyDB]

/-- Witness for the amended unknown-category theorem at category id 99. -/
theorem add_transaction_unknown_category_commits_witness :
    (add_transaction noCategoryDB 5 "taxi" 99 "2024-01-02" "cash" "" "").2
        = Except.error "TypeError: NoneType object is not subscriptable" :=
  (add_transaction_unknown_category_commits noCategoryDB 5 "taxi" 99 "2024-01-02"
    "cash" "" "" rfl).1

/-- C4: a successful `add_transaction` against a resolving category
returns the fresh id; with no account row the accounts table stays empty
(no error), and with a primary (first) account and pairwise-distinct
account ids the primary balance moves by exactly `+amount` for an income
category and `-amount` for an expense category, other accounts
untouched. -/
theorem add_transaction_balance_side_effect (db : DB) (amount : ℚ)
    (description : String) (cid : Nat) (date pm loc tags : String) (cat : Category)
    (hcat : (db.categories.filter (fun c => c.id == cid)).head? = some cat) :
    (add_transaction db amount description cid date pm loc tags).2
        = Except.ok db.nextTransactionId
    ∧ (db.accounts = [] →
        (add_transaction db amount description cid date pm loc tags).1.accounts = [])
    ∧ (∀ (a : Account) (rest : List Account), db.accounts = a :: rest →
        (db.accounts.map (fun x => x.id)).Nodup →
          (cat.ctype = "income" →
            (add_transaction db amount description cid date pm loc tags).1.accounts
              = { a with balance := a.balance + amount } :: rest)
        ∧ (cat.ctype = "expense" →
            (add_transaction db amount description cid date pm loc tags).1.accounts
              = { a with balance := a.balance - amount } :: rest)) := by
  refine ⟨?_, ?_, ?_⟩
  · rcases haccs : db.accounts with _ | ⟨a, rest⟩ <;>
      simp [add_transaction, update_balance_after_transaction, Except.map, hcat, haccs]
  · intro h
    simp [add_transaction, update_balance_after_transaction, Except.map, hcat, h]
  · intro a rest h hnd
    rw [h, List.map_cons, List.nodup_cons] at hnd
    obtain ⟨ha, _⟩ := hnd
    have hrest1 : rest.map
        (fun x => if x.id = a.id then { x with balance := x.balance + amount } else x)
          = rest :=
      map_keyed_update_of_not_mem (fun x => x.id)
        (fun x => { x with balance := x.balance + amount }) a.id rest ha
    have hrest2 : rest.map
        (fun x => if x.id = a.id then { x with balance := x.balance - amount } else x)
          = rest :=
      map_keyed_update_of_not_mem (fun x => x.id)
        (fun x => { x with balance := x.balance - amount }) a.id rest ha
    constructor <;> intro hty <;>
      simp +decide [add_transaction, update_balance_after_transaction, hcat, h, hty,
        hrest1, hrest2]

/-- Witness for the balance side-effect theorem: an income transaction
of 50 moves the sole account's balance from 100 to 100 + 50. -/
theorem add_transaction_balance_side_effect_witness :
    (add_transaction accountDB 50 "pay" 1 "2024-03-01" "cash" "" "").2 = Except.ok 1
    ∧ (add_transaction accountDB 50 "pay" 1 "2024-03-01" "cash" "" "").1.accounts
        = [⟨1, "Main", "checking", 100 + 50, "USD", ""⟩] := by
  have h := add_transaction_balance_side_effect accountDB 50 "pay" 1 "2024-03-01"
    "cash" "" "" ⟨1, "Зарплата", "income", "#28a745"⟩ (by rfl)
  exact ⟨h.1, (h.2.2 ⟨1, "Main", "checking", 100, "USD", ""⟩ [] (by rfl) (by decide)).1 rfl⟩

/-- C5: `check_budget_status` returns one status per budget whose end
date has not passed (given well-formed category ids that all resolve);
each status's `spent` is the ledger sum for the budget's category name
inside the window, `percentage` is `spent / amount * 100` guarded to 0
when `amount` is not positive, `alert` holds exactly when the percentage
reaches `threshold * 100`, and `remaining` is `amount - spent`; the
200-budget/300-expense scenario yields percentage 150, alert and
remaining -100. -/
theorem check_budget_status_spec :
    (∀ (db : DB) (today : String),
        (db.categories.map (fun c => c.id)).Nodup →
        (∀ b ∈ db.budgets,
          db.categories.filter (fun c => c.id == b.category_id) ≠ []) →
        (check_budget_status db today).length
          = (db.budgets.filter (fun b => strLe today b.end_date)).length)
  ∧ (∀ (db : DB) (b : Budget) (catName : String),
        (budgetStatusOf db b catName).spent
          = spentFor db catName b.start_date b.end_date
      ∧ (budgetStatusOf db b catName).percentage
          = (if b.amount > 0
              then spentFor db catName b.start_date b.end_date / b.amount * 100 else 0)
      ∧ ((budgetStatusOf db b catName).alert = true
          ↔ (budgetStatusOf db b catName).percentage ≥ b.alert_threshold * 100)
      ∧ (budgetStatusOf db b catName).remaining
          = b.amount - spentFor db catName b.start_date b.end_date)
  ∧ check_budget_status budgetScenarioDB "2024-01-15"
      = [{ category := "Food", budget := 200, spent := 300, remaining := -100,
           percentage := 150, alert := true, period := "monthly" }] := by
  refine ⟨?_, ?_, ?_⟩
  · intro db today hnd hres
    apply flatten_map_length_eq
    intro b hb
    rw [List.length_map]
    exact length_filter_key_eq_one (fun c => c.id) b.category_id db.categories hnd
      (hres b (List.mem_of_mem_filter hb))
  · intro db b catName
    refine ⟨rfl, rfl, ?_, rfl⟩
    simp [budgetStatusOf]
  · simp +decide [check_budget_status, budgetScenarioDB, emptyDB, budgetStatusOf, spentFor]
    norm_num

/-- Witness for the budget-status theorem at the concrete scenario
state. -/
theorem check_budget_status_witness :
    (check_budget_status budgetScenarioDB "2024-01-15").length
      = (budgetScenarioDB.budgets.filter
          (fun b => strLe "2024-01-15" b.end_date)).length :=
  check_budget_status_spec.1 budgetScenarioDB "2024-01-15" (by decide) (by decide)

/-- C8 (amended): `add_goal` performs no validation of the target
amount: a goal with target 0 is created and stored (no
`InvalidTargetError` exists in the code); `get_goals` then annotates it
with a NULL progress (the store's division by zero yields NULL rather
than raising), while goals with a non-zero target get the numeric
`round(current / target * 100, 2)` annotation. -/
theorem add_goal_accepts_zero_target (db : DB) (name : String)
    (target_date : Option String) (description : String) (priority : Int) :
    ((add_goal db name 0 target_date description priority).1).goals
        = db.goals ++ [⟨db.nextGoalId, name, 0, 0, target_date, description, priority, false⟩]
    ∧ (add_goal db name 0 target_date description priority).2 = db.nextGoalId
    ∧ goalProgress ⟨db.nextGoalId, name, 0, 0, target_date, description, priority, false⟩
        = none
    ∧ (∀ g : Goal, g.target_amount ≠ 0 →
        goalProgress g = some (round2 (g.current_amount / g.target_amount * 100))) := by
  refine ⟨rfl, rfl, ?_, ?_⟩
  · simp [goalProgress]
  · intro g hg
    simp [goalProgress, hg]

/-- C8 counterexample: `add_goal` with target 0 succeeds — the goal is
stored and `get_goals` reports it with a NULL progress — so the claimed
`InvalidTargetError` rejection does not happen. -/
theorem add_goal_zero_target_counterexample :
    (add_goal emptyDB "Vacation" 0 none "" 1).2 = 1
    ∧ ((add_goal emptyDB "Vacation" 0 none "" 1).1).goals
        = [⟨1, "Vacation", 0, 0, none, "", 1, false⟩]
    ∧ get_goals (add_goal emptyDB "Vacation" 0 none "" 1).1
        = [⟨1, "Vacation", 0, 0, none, "", 1, false, none⟩] := by
  refine ⟨rfl, rfl, ?_⟩
  simp [get_goals, add_goal, emptyDB, sortBy, insertBy, goalRowOf, goalProgress]

/-- Witness for the amended zero-target theorem: the zero-target goal is
appended and a non-zero-target goal gets a numeric annotation. -/
theorem add_goal_accepts_zero_target_witness :
    ((add_goal emptyDB "Vacation" 0 none "" 1).1).goals
        = [⟨1, "Vacation", 0, 0, none, "", 1, false⟩]
    ∧ goalProgress ⟨1, "Car", 100, 50, none, "", 1, false⟩
        = some (round2 ((50 : ℚ) / 100 * 100)) := by
  have h := add_goal_accepts_zero_target emptyDB "Vacation" none "" 1
  exact ⟨h.1, h.2.2.2 ⟨1, "Car", 100, 50, none, "", 1, false⟩ (by norm_num)⟩
